/-
Verification of the WattBox client (`src/client.ts`) — a shallow embedding of
the session state machine, line framer/classifier, correlation bus and the
command decoders, together with proofs about the properties of this code.

Conventions of the embedding:
* JS strings are Lean `String`s; the per-regex matchers below implement the
  exact search-anywhere / leftmost-match semantics of `RegExp.prototype.exec`
  for the concrete regular expressions appearing in the source.
* `parseFloat` on a decimal numeral is modelled as the exact rational value of
  the numeral (JS rounds it to a binary double; no property proved here
  depends on that rounding).
* Node timers are modelled as `Option Nat` fields holding the configured
  delay; promises are modelled as `Option (Except WattBoxError _)` slots that
  are settled at most once (`settle`).
-/
import Mathlib

namespace WattBox

/-- The error values the client produces: `new WattBoxError(msg)` for the five
message strings appearing in `client.ts`, plus `socketError` standing for a
Node socket error object forwarded by the `error` handler. -/
inductive WattBoxError where
  | notConnected   -- 'Not Connected'
  | timeout        -- 'Timeout'
  | requestError   -- 'Request Error'
  | controlError   -- 'Control Error'
  | invalidLogin   -- 'Invalid Login'
  | socketError    -- a raw socket error forwarded by `reject(err)`
deriving DecidableEq, Repr

/-- `WattBoxClientOpts` from `client.ts`; `none` for `maxReconnectAttempts`
models the default `Infinity`, `none` for `timeout` means the 5000 ms default
is used (`this.opts.timeout ?? 5000`). -/
structure WattBoxClientOpts where
  host : String
  username : String
  password : String
  maxReconnectAttempts : Option Nat := none
  timeout : Option Nat := none
deriving DecidableEq, Repr

/-- `this.opts.timeout ?? 5000`. -/
def timeoutDuration (opts : WattBoxClientOpts) : Nat :=
  opts.timeout.getD 5000

/-! ## JS string primitives

The JS string methods `client.ts` uses (`trim`, `split`, `startsWith`,
`slice(1, -1)`) are modelled directly on the character list of the string;
the protocol text is ASCII, where JS UTF-16 code units and Lean code points
coincide. -/

/-- The characters `String.prototype.trim` strips that can occur in ASCII
transport data. -/
def isJSWhitespace (c : Char) : Bool :=
  c = ' ' || c = '\t' || c = '\n' || c = '\r' || c = '\x0b' || c = '\x0c'

/-- `String.prototype.trim`. -/
def jsTrim (s : List Char) : List Char :=
  ((s.dropWhile isJSWhitespace).reverse.dropWhile isJSWhitespace).reverse

/-- `String.prototype.split` with a single-character separator: keeps empty
fields, and splitting the empty string gives `[""]`. -/
def jsSplit (sep : Char) : List Char → List (List Char)
  | [] => [[]]
  | c :: cs =>
    let r := jsSplit sep cs
    if c = sep then [] :: r
    else
      match r with
      | h :: t => (c :: h) :: t
      | [] => [[c]]

/-- `message.split('=')[0]`: the correlation key of a protocol line. -/
def splitKey (m : String) : String :=
  String.mk ((jsSplit '=' m.data).headD [])

/-- Match a literal character sequence at the current position, returning the
rest of the input. -/
def matchLit : List Char → List Char → Option (List Char)
  | [], s => some s
  | _ :: _, [] => none
  | l :: ls, c :: cs => if c = l then matchLit ls cs else none

/-- `String.prototype.startsWith`. -/
def jsStartsWith (p s : String) : Bool :=
  (matchLit p.data s.data).isSome

/-! ## Regex matchers

Each `match…` definition embeds one of the concrete regular expressions used
in `client.ts`, with `exec`'s semantics: try to match at every start position
from the left, first success wins. -/

/-- Try an at-position matcher at every suffix, leftmost first (the scan
`exec` performs over the subject string, end-of-string position included). -/
def scanFirst {α : Type} (p : List Char → Option α) : List Char → Option α
  | [] => p []
  | c :: cs =>
    match p (c :: cs) with
    | some a => some a
    | none => scanFirst p cs

/-- JS `parseInt` restricted to the all-digit strings the matchers produce. -/
def parseNatDigits (ds : List Char) : Nat :=
  ds.foldl (fun n c => 10 * n + (c.toNat - '0'.toNat)) 0

/-- JS `Boolean(n)` on a number: `false` exactly for `0`. -/
def jsBoolOfNat (n : Nat) : Bool := n ≠ 0

/-- A `[01]` character class. -/
def isBit (c : Char) : Bool := c = '0' || c = '1'

/-- Continuation of `(?:[01],)*[01]` after the first bit: consume `,bit` pairs
as long as possible.  This equals the backtracking result: the star gives a
pair back exactly when no bit follows the comma. -/
def bitsCSVAux : List Char → List Char
  | ',' :: c :: rest => if isBit c then c :: bitsCSVAux rest else []
  | _ => []

/-- The capture group `((?:[01],)*[01])` at the current position, returned as
the list of its bit characters (the commas dropped). -/
def bitsCSV : List Char → Option (List Char)
  | c :: rest => if isBit c then some (c :: bitsCSVAux rest) else none
  | [] => none

/-- `\d+` at the current position: the (nonempty) digit run and the rest. -/
def parseDigits1 (cs : List Char) : Option (List Char × List Char) :=
  let ds := cs.takeWhile Char.isDigit
  if ds.isEmpty then none else some (ds, cs.drop ds.length)

/-- A single expected character at the current position. -/
def parseCh (c : Char) : List Char → Option (List Char)
  | c2 :: rest => if c2 = c then some rest else none
  | [] => none

/-- Exact rational value of the numeral `ds.fs`. -/
def decValue (ds fs : List Char) : ℚ :=
  (parseNatDigits ds : ℚ) + (parseNatDigits fs : ℚ) / (10 : ℚ) ^ fs.length

/-- `\d+(?:\.\d+)?` at the current position, as the rational value it denotes
(`parseFloat` of the matched text, see the header note) and the rest.  The
optional fraction is taken exactly when a digit follows the dot, which agrees
with the backtracking semantics because the character after the group must be
a `,` or an alternation literal, never a digit or a dot. -/
def parseDec (cs : List Char) : Option (ℚ × List Char) :=
  match parseDigits1 cs with
  | none => none
  | some (ds, rest) =>
    match rest with
    | '.' :: rest2 =>
      let fs := rest2.takeWhile Char.isDigit
      if fs.isEmpty then some ((parseNatDigits ds : ℚ), rest)
      else some (decValue ds fs, rest2.drop fs.length)
    | _ => some ((parseNatDigits ds : ℚ), rest)

/-- `(A|B)` on two literals, left alternative first, returning the matched
text and the rest. -/
def parseAlt (a b : String) (cs : List Char) : Option (String × List Char) :=
  match matchLit a.data cs with
  | some rest => some (a, rest)
  | none =>
    match matchLit b.data cs with
    | some rest => some (b, rest)
    | none => none

/-- `/lit([01])/`: the captured bit character. -/
def matchBitAfter (lit : String) (s : String) : Option Char :=
  scanFirst (fun cs =>
    match matchLit lit.data cs with
    | some (c :: _) => if isBit c then some c else none
    | _ => none) s.data

/-- `/lit(.*)/`: the capture runs greedily to the end of the line (`.` does
not match the line terminators `\n`, `\r`). -/
def matchRestAfter (lit : String) (s : String) : Option String :=
  scanFirst (fun cs =>
    (matchLit lit.data cs).map
      (fun rest => String.mk (rest.takeWhile (fun c => c ≠ '\n' && c ≠ '\r')))) s.data

/-- `/lit(\d+)/`: the captured digit run. -/
def matchDigitsAfter (lit : String) (s : String) : Option (List Char) :=
  scanFirst (fun cs =>
    match matchLit lit.data cs with
    | some rest =>
      match parseDigits1 rest with
      | some (ds, _) => some ds
      | none => none
    | none => none) s.data

/-- `/lit((?:[01],)*[01])/`: the captured comma-separated bit list. -/
def matchBitsAfter (lit : String) (s : String) : Option (List Char) :=
  scanFirst (fun cs => (matchLit lit.data cs).bind bitsCSV) s.data

/-! ## Command decoders

Each `get…` definition is the body of the correspondingly named method of
`WattBoxClient` after the `await this.handleRequestMessage(...)`, i.e. the
pure function from the raw reply string to the method's result. -/

/-- `WattBoxOutletAction` from `schemas.ts`. -/
inductive WattBoxOutletAction where
  | OFF | ON | TOGGLE | RESET
deriving DecidableEq, Repr

/-- The reverse enum mapping `WattBoxOutletAction[action]` used when building
the `!OutletSet` line. -/
def actionName : WattBoxOutletAction → String
  | .OFF => "OFF"
  | .ON => "ON"
  | .TOGGLE => "TOGGLE"
  | .RESET => "RESET"

/-- `WattBoxOutletPowerStatus` (the shape built by `getOutletPowerStatus`). -/
structure WattBoxOutletPowerStatus where
  outlet : Nat
  watts : ℚ
  amps : ℚ
  volts : ℚ
deriving DecidableEq, Repr

/-- `WattBoxPowerStatus` (the shape built by `getPowerStatus`). -/
structure WattBoxPowerStatus where
  amps : ℚ
  watts : ℚ
  volts : ℚ
  safeVoltageStatus : Bool
deriving DecidableEq, Repr

/-- `WattBoxUPSStatus` (the shape built by `getUPSStatus`). -/
structure WattBoxUPSStatus where
  batteryCharge : Nat
  batteryLoad : Nat
  batteryHealthy : Bool
  powerLost : Bool
  batteryRuntime : Nat
  alarmEnabled : Bool
  alarmMuted : Bool
deriving DecidableEq, Repr

/-- `getAutoReboot`: `/\?AutoReboot=([01])/`, `Boolean(parseInt(m))`, default
`false`. -/
def getAutoReboot (response : String) : Bool :=
  match matchBitAfter "?AutoReboot=" response with
  | some c => jsBoolOfNat (parseNatDigits [c])
  | none => false

/-- `getFirmware`: `/\?Firmware=(.*)/`, default `''`. -/
def getFirmware (response : String) : String :=
  (matchRestAfter "?Firmware=" response).getD ""

/-- `getHostname`: `/\?Hostname=(.*)/`, default `''`. -/
def getHostname (response : String) : String :=
  (matchRestAfter "?Hostname=" response).getD ""

/-- `getModel`: `/\?Model=(.*)/`, default `''`. -/
def getModel (response : String) : String :=
  (matchRestAfter "?Model=" response).getD ""

/-- `getOutletCount`: `/\?OutletCount=(\d+)/`, `parseInt`, default `0`. -/
def getOutletCount (response : String) : Nat :=
  match matchDigitsAfter "?OutletCount=" response with
  | some ds => parseNatDigits ds
  | none => 0

/-- JS `x.slice(1, -1)`: drop the first and the last character (empty when
the string has fewer than two characters). -/
def jsSliceOneNegOne (x : List Char) : List Char :=
  (x.drop 1).dropLast

/-- `getOutletName`: `/\?OutletName=(.*)/`, `split(',')` and strip the
surrounding braces from each element via `slice(1, -1)`; default `[]`. -/
def getOutletName (response : String) : List String :=
  match matchRestAfter "?OutletName=" response with
  | some g => (jsSplit ',' g.data).map (fun x => String.mk (jsSliceOneNegOne x))
  | none => []

/-- The full `/\?OutletPowerStatus=(\d+),(\d+(?:\.\d+)?),(\d+(?:\.\d+)?),(\d+(?:\.\d+)?)/`
match (the `match.length < 5` guard in the source is vacuous: a successful
4-group `exec` always has length 5). -/
def matchOutletPowerStatus (s : String) : Option WattBoxOutletPowerStatus :=
  scanFirst (fun cs =>
    match matchLit "?OutletPowerStatus=".data cs with
    | none => none
    | some r =>
      match parseDigits1 r with
      | none => none
      | some (ds, r) =>
        match parseCh ',' r with
        | none => none
        | some r =>
          match parseDec r with
          | none => none
          | some (w, r) =>
            match parseCh ',' r with
            | none => none
            | some r =>
              match parseDec r with
              | none => none
              | some (a, r) =>
                match parseCh ',' r with
                | none => none
                | some r =>
                  match parseDec r with
                  | none => none
                  | some (v, _) => some ⟨parseNatDigits ds, w, a, v⟩) s.data

/-- `getOutletPowerStatus` (decode part): the record on a match, `null`
otherwise. -/
def getOutletPowerStatus (response : String) : Option WattBoxOutletPowerStatus :=
  matchOutletPowerStatus response

/-- `getOutletStatus`: `/\?OutletStatus=((?:[01],)*[01])/`, then
`split(',').map(x => Boolean(parseInt(x)))`; default `[]`. -/
def getOutletStatus (response : String) : List Bool :=
  match matchBitsAfter "?OutletStatus=" response with
  | some bits => bits.map (fun c => jsBoolOfNat (parseNatDigits [c]))
  | none => []

/-- The full `/\?PowerStatus=(\d+(?:\.\d+)?),(\d+(?:\.\d+)?),(\d+(?:\.\d+)?),(0|1)/`
match. -/
def matchPowerStatus (s : String) : Option WattBoxPowerStatus :=
  scanFirst (fun cs =>
    match matchLit "?PowerStatus=".data cs with
    | none => none
    | some r =>
      match parseDec r with
      | none => none
      | some (a, r) =>
        match parseCh ',' r with
        | none => none
        | some r =>
          match parseDec r with
          | none => none
          | some (w, r) =>
            match parseCh ',' r with
            | none => none
            | some r =>
              match parseDec r with
              | none => none
              | some (v, r) =>
                match parseCh ',' r with
                | none => none
                | some r =>
                  match r with
                  | c :: _ =>
                    if isBit c then
                      some ⟨a, w, v, jsBoolOfNat (parseNatDigits [c])⟩
                    else none
                  | [] => none) s.data

/-- `getPowerStatus` (decode part): the record on a match, `null` otherwise. -/
def getPowerStatus (response : String) : Option WattBoxPowerStatus :=
  matchPowerStatus response

/-- `getServiceTag`: `/\?ServiceTag=(.*)/`, default `''`. -/
def getServiceTag (response : String) : String :=
  (matchRestAfter "?ServiceTag=" response).getD ""

/-- `getUPSConnection`: `/\?UPSConnection=([01])/`, default `false`. -/
def getUPSConnection (response : String) : Bool :=
  match matchBitAfter "?UPSConnection=" response with
  | some c => jsBoolOfNat (parseNatDigits [c])
  | none => false

/-- The full `/\?UPSStatus=(\d+),(\d+),(Good|Bad),(True|False),(\d+),(True|False),(True|False)/`
match, with the source's decodings `match[3] === 'Good'` and
`match[k] === 'True'`. -/
def matchUPSStatus (s : String) : Option WattBoxUPSStatus :=
  scanFirst (fun cs =>
    match matchLit "?UPSStatus=".data cs with
    | none => none
    | some r =>
      match parseDigits1 r with
      | none => none
      | some (charge, r) =>
        match parseCh ',' r with
        | none => none
        | some r =>
          match parseDigits1 r with
          | none => none
          | some (load, r) =>
            match parseCh ',' r with
            | none => none
            | some r =>
              match parseAlt "Good" "Bad" r with
              | none => none
              | some (health, r) =>
                match parseCh ',' r with
                | none => none
                | some r =>
                  match parseAlt "True" "False" r with
                  | none => none
                  | some (lost, r) =>
                    match parseCh ',' r with
                    | none => none
                    | some r =>
                      match parseDigits1 r with
                      | none => none
                      | some (runtime, r) =>
                        match parseCh ',' r with
                        | none => none
                        | some r =>
                          match parseAlt "True" "False" r with
                          | none => none
                          | some (alarmEn, r) =>
                            match parseCh ',' r with
                            | none => none
                            | some r =>
                              match parseAlt "True" "False" r with
                              | none => none
                              | some (alarmMu, _) =>
                                some ⟨parseNatDigits charge, parseNatDigits load,
                                      health = "Good", lost = "True",
                                      parseNatDigits runtime,
                                      alarmEn = "True", alarmMu = "True"⟩) s.data

/-- `getUPSStatus` (decode part): the record on a match, `null` otherwise
(the `match.length < 8` guard in the source is vacuous). -/
def getUPSStatus (response : String) : Option WattBoxUPSStatus :=
  matchUPSStatus response

/-! ## Session state

`ClientState` collects the mutable fields of `WattBoxClient`
(`connected`, `reconnectAttempts`, `reconnectTimer`, `socket`) together with
the live objects of the run: the correlation-bus (`bcc`) listener registry,
decomposed into the one-shot `login` listener and the per-pending-request
listeners, the promise slots, and ghost logs of the externally observable
effects (sockets passed to `end()`, `outletStatus` and `ready` emissions). -/

deriving instance DecidableEq for Except

/-- One transport socket: the lines written to it, whether `end()` has been
called on it (graceful close) and whether `destroy()` has been called on it
(forcible teardown). -/
structure SocketSt where
  written : List String := []
  ended : Bool := false
  destroyed : Bool := false
deriving DecidableEq, Repr

/-- Settle a promise slot: the first settlement wins, later `resolve`/`reject`
calls on an already settled promise are no-ops (JS promise semantics). -/
def settle {α : Type} (slot : Option α) (v : α) : Option α :=
  match slot with
  | some w => some w
  | none => some v

/-- One in-flight `handleRequestMessage` promise: the key its reply listener
is registered under, whether the reply (`onRequest`) and error (`onError`)
once-listeners are still registered on the bus, the pending `onTimeout` timer
(holding the configured delay) and the promise slot. -/
structure PendingQuery where
  key : String
  replyListener : Bool := true
  errorListener : Bool := true
  timer : Option Nat := none
  outcome : Option (Except WattBoxError String) := none
deriving DecidableEq, Repr

/-- One in-flight `handleControlMessage` promise (listeners on the fixed
`ok` / `error` keys). -/
structure PendingControl where
  okListener : Bool := true
  errorListener : Bool := true
  timer : Option Nat := none
  outcome : Option (Except WattBoxError Unit) := none
deriving DecidableEq, Repr

/-- The state of one `WattBoxClient` instance. -/
structure ClientState where
  opts : WattBoxClientOpts
  connected : Bool := false
  reconnectAttempts : Int := 0
  reconnectTimer : Option Nat := none
  socket : Option SocketSt := none
  /-- Ghost log: sockets on which `end()` was called (by `disconnect`). -/
  closedSockets : List SocketSt := []
  /-- Whether the one-shot `bcc.once('login', …)` listener is registered. -/
  loginListener : Bool := false
  /-- The promise returned by the current `connect()` call. -/
  connectOutcome : Option (Except WattBoxError Unit) := none
  pendingQueries : List PendingQuery := []
  pendingControls : List PendingControl := []
  /-- Ghost log: payloads of emitted `outletStatus` events, in order. -/
  outletStatusEvents : List (List Bool) := []
  /-- Ghost count of emitted `ready` events. -/
  readyEvents : Nat := 0
deriving DecidableEq, Repr

/-- `socket.write(line)` guarded by `if (this.socket)`. -/
def sockWrite (s : ClientState) (line : String) : ClientState :=
  match s.socket with
  | some sock => { s with socket := some { sock with written := sock.written ++ [line] } }
  | none => s

/-- `this.socket?.destroy()`. -/
def sockDestroy (s : ClientState) : ClientState :=
  match s.socket with
  | some sock => { s with socket := some { sock with destroyed := true } }
  | none => s

/-- `disconnect()`: clear the reconnect timer if set, `end()` and drop the
socket if present, clear the connected flag.  (Note: `reconnectAttempts` is
not touched.) -/
def disconnect (s : ClientState) : ClientState :=
  let s1 := { s with reconnectTimer := none }
  let s2 :=
    match s1.socket with
    | some sock =>
      { s1 with socket := none,
                closedSockets := s1.closedSockets ++ [{ sock with ended := true }] }
    | none => s1
  { s2 with connected := false }

/-- `bcc.emit('login', success)`: fires the one-shot login listener installed
by `connect()` if it is registered.  On success: emit `ready`, resolve the
`connect()` promise.  On failure: set the reconnect counter to `-1`, call
`disconnect()`, reject with `WattBoxError('Invalid Login')`. -/
def emitLogin (s : ClientState) (success : Bool) : ClientState :=
  if s.loginListener then
    let s1 := { s with loginListener := false }
    if success then
      { s1 with readyEvents := s1.readyEvents + 1,
                connectOutcome := settle s1.connectOutcome (Except.ok ()) }
    else
      let s2 := disconnect { s1 with reconnectAttempts := -1 }
      { s2 with connectOutcome := settle s2.connectOutcome (Except.error .invalidLogin) }
  else s

/-- Delivery of `bcc.emit(message.split('=')[0], message)` to one pending
query: its one-shot `onRequest` listener fires when registered under the
emitted key; the listener removes the sibling `onError` listener, clears the
timer and resolves with the full line. -/
def fireQueryReply (m : String) (p : PendingQuery) : PendingQuery :=
  if p.replyListener && p.key == splitKey m then
    { p with replyListener := false, errorListener := false, timer := none,
             outcome := settle p.outcome (Except.ok m) }
  else p

/-- Delivery of `bcc.emit('error')` to one pending query: its one-shot
`onError` listener removes the `onRequest` listener, clears the timer and
rejects with `WattBoxError('Request Error')`. -/
def fireQueryError (p : PendingQuery) : PendingQuery :=
  if p.errorListener then
    { p with errorListener := false, replyListener := false, timer := none,
             outcome := settle p.outcome (Except.error .requestError) }
  else p

/-- Delivery of `bcc.emit('ok')` to one pending control: `onOk` removes the
`onError` listener, clears the timer and resolves. -/
def fireControlOk (p : PendingControl) : PendingControl :=
  if p.okListener then
    { p with okListener := false, errorListener := false, timer := none,
             outcome := settle p.outcome (Except.ok ()) }
  else p

/-- Delivery of `bcc.emit('error')` to one pending control: `onError` removes
the `onOk` listener, clears the timer and rejects with
`WattBoxError('Control Error')`. -/
def fireControlError (p : PendingControl) : PendingControl :=
  if p.errorListener then
    { p with errorListener := false, okListener := false, timer := none,
             outcome := settle p.outcome (Except.error .controlError) }
  else p

/-- `handleData` on one single already-trimmed line (the body of `handleData`
after the multi-line split): the login `switch`, then the `?`-reply
dispatch, then the `OK` / `#Error` control dispatch, then the
`~OutletStatus` unsolicited notification. -/
def processLine (s : ClientState) (message : String) : ClientState :=
  if message = "Please Login to Continue" then s
  else if message = "Username:" then sockWrite s (s.opts.username ++ "\n")
  else if message = "Password:" then sockWrite s (s.opts.password ++ "\n")
  else if message = "Successfully Logged In!" then emitLogin s true
  else if message = "Invalid Login" then emitLogin s false
  else if jsStartsWith "?" message then
    { s with pendingQueries := s.pendingQueries.map (fireQueryReply message) }
  else if message = "OK" then
    { s with pendingControls := s.pendingControls.map fireControlOk }
  else if message = "#Error" then
    { s with pendingQueries := s.pendingQueries.map fireQueryError,
             pendingControls := s.pendingControls.map fireControlError }
  else if jsStartsWith "~OutletStatus" message then
    match matchBitsAfter "~OutletStatus=" message with
    | some bits =>
      { s with outletStatusEvents :=
          s.outletStatusEvents ++ [bits.map (fun c => jsBoolOfNat (parseNatDigits [c]))] }
    | none => s
  else s

/-- `handleData(data)`: trim the chunk; when it still contains a newline,
split and recurse on each piece.  Each piece of the split is newline-free, so
the recursive `handleData` call on it reduces to `processLine` of its trimmed
text; the recursion is unfolded here to that one level. -/
def handleData (s : ClientState) (data : String) : ClientState :=
  let message := String.mk (jsTrim data.data)
  let parts := jsSplit '\n' message.data
  if parts.length > 1 then
    parts.foldl (fun st m => processLine st (String.mk (jsTrim m))) s
  else
    processLine s message

/-- `handleRequestMessage(message)`: throw `WattBoxError('Not Connected')`
when the connected flag is down (before any effect); otherwise write
`message\n` to the socket if present and register a fresh pending query
(reply listener on `message.split('=')[0]`, error listener, timeout timer of
the configured duration). -/
def handleRequestMessage (s : ClientState) (message : String) :
    ClientState × Option WattBoxError :=
  if !s.connected then (s, some .notConnected)
  else
    let s1 := sockWrite s (message ++ "\n")
    ({ s1 with pendingQueries := s1.pendingQueries ++
        [{ key := splitKey message, timer := some (timeoutDuration s.opts) }] },
     none)

/-- `handleControlMessage(message)`: as `handleRequestMessage`, with the
listeners on the fixed `ok` / `error` keys. -/
def handleControlMessage (s : ClientState) (message : String) :
    ClientState × Option WattBoxError :=
  if !s.connected then (s, some .notConnected)
  else
    let s1 := sockWrite s (message ++ "\n")
    ({ s1 with pendingControls := s1.pendingControls ++
        [{ timer := some (timeoutDuration s.opts) }] },
     none)

/-- `execOutletSet(outlet, action)`: issue the
`!OutletSet=${outlet},${WattBoxOutletAction[action]}` control line. -/
def execOutletSet (s : ClientState) (outlet : Nat) (action : WattBoxOutletAction) :
    ClientState × Option WattBoxError :=
  handleControlMessage s ("!OutletSet=" ++ toString outlet ++ "," ++ actionName action)

/-- The `onTimeout` callback of a pending query (fires only while its timer
is armed): `this.socket?.destroy()` and reject with `WattBoxError('Timeout')`.
It does not touch the bus listeners. -/
def fireQueryTimeout (s : ClientState) (i : Nat) : ClientState :=
  match s.pendingQueries.get? i with
  | some p =>
    match p.timer with
    | some _ =>
      let s1 := sockDestroy s
      let p1 : PendingQuery :=
        { p with timer := none, outcome := settle p.outcome (Except.error .timeout) }
      { s1 with pendingQueries := s1.pendingQueries.set i p1 }
    | none => s
  | none => s

/-- The `onTimeout` callback of a pending control, same shape. -/
def fireControlTimeout (s : ClientState) (i : Nat) : ClientState :=
  match s.pendingControls.get? i with
  | some p =>
    match p.timer with
    | some _ =>
      let s1 := sockDestroy s
      let p1 : PendingControl :=
        { p with timer := none, outcome := settle p.outcome (Except.error .timeout) }
      { s1 with pendingControls := s1.pendingControls.set i p1 }
    | none => s
  | none => s

/-- The socket `connect` handler: set the connected flag, reset the reconnect
counter. -/
def onSockConnect (s : ClientState) : ClientState :=
  { s with connected := true, reconnectAttempts := 0 }

/-- `this.reconnectAttempts >= maxReconnectAttempts` with
`maxReconnectAttempts = this.opts.maxReconnectAttempts ?? Infinity` (the
comparison with `Infinity` is always false). -/
def atMaxAttempts (maxOpt : Option Nat) (attempts : Int) : Bool :=
  match maxOpt with
  | some m => (m : Int) ≤ attempts
  | none => false

/-- `Math.min(32, Math.pow(2, attempts)) * 1000`; at its use site `attempts`
has just been incremented from a value `≥ 0`, so it is `≥ 1` and `toNat` is
exact. -/
def reconnectBackoff (attempts : Int) : Nat :=
  min 32 (2 ^ attempts.toNat) * 1000

/-- The socket `close` handler: clear the connected flag; when the reconnect
counter is not the `-1` sentinel and has not reached the configured maximum,
increment it and schedule `connect()` after the backoff delay. -/
def onSockClose (s : ClientState) : ClientState :=
  let s1 := { s with connected := false }
  if 0 ≤ s1.reconnectAttempts then
    if atMaxAttempts s1.opts.maxReconnectAttempts s1.reconnectAttempts then s1
    else
      let a := s1.reconnectAttempts + 1
      { s1 with reconnectAttempts := a, reconnectTimer := some (reconnectBackoff a) }
  else s1

/-- The socket `timeout` handler: destroy the socket when not yet connected. -/
def onSockTimeout (s : ClientState) : ClientState :=
  if !s.connected then sockDestroy s else s

/-- The socket `error` handler: while not yet connected, reject the pending
`connect()` promise with the socket error. -/
def onSockError (s : ClientState) : ClientState :=
  if !s.connected then
    { s with connectOutcome := settle s.connectOutcome (Except.error .socketError) }
  else s

/-- The synchronous part of `connect()`: create a fresh socket, install the
handlers, replace the bus `login` listener with a fresh one-shot listener and
return a fresh promise. -/
def connectStart (s : ClientState) : ClientState :=
  { s with socket := some {}, loginListener := true, connectOutcome := none }

/-- The events that can occur on a client after `connect()` has installed its
handlers: socket lifecycle events, inbound data chunks, API calls, and the
firing of a pending request's timeout timer. -/
inductive Ev where
  | sockConnect
  | sockClose
  | sockTimeout
  | sockError
  | data (chunk : String)
  | callDisconnect
  | queryTimeout (i : Nat)
  | controlTimeout (i : Nat)
  | callQuery (message : String)
  | callControl (message : String)
deriving DecidableEq, Repr

/-- Event dispatch. -/
def step (s : ClientState) : Ev → ClientState
  | .sockConnect => onSockConnect s
  | .sockClose => onSockClose s
  | .sockTimeout => onSockTimeout s
  | .sockError => onSockError s
  | .data chunk => handleData s chunk
  | .callDisconnect => disconnect s
  | .queryTimeout i => fireQueryTimeout s i
  | .controlTimeout i => fireControlTimeout s i
  | .callQuery m => (handleRequestMessage s m).1
  | .callControl m => (handleControlMessage s m).1

/-- A run: fold `step` over an event list. -/
def steps (s : ClientState) (evs : List Ev) : ClientState :=
  evs.foldl step s

/-! ## Concrete states used by the witnesses and counterexamples -/

/-- A demonstration configuration (all defaults). -/
def demoOpts : WattBoxClientOpts :=
  { host := "wattbox.local", username := "user", password := "pass" }

/-- A freshly constructed client. -/
def initialState : ClientState := { opts := demoOpts }

/-- After `connect()` has been called and the socket `connect` event has
fired, but no login result has arrived: the `AwaitingLogin` situation. -/
def awaitingLoginState : ClientState :=
  onSockConnect (connectStart initialState)

/-- After the device has also sent `Successfully Logged In!`: the `Ready`
situation. -/
def readyState : ClientState :=
  handleData awaitingLoginState "Successfully Logged In!"

/-- `readyState` with one in-flight `?Firmware` query. -/
def queryState : ClientState :=
  (handleRequestMessage readyState "?Firmware").1

/-- `readyState` with one in-flight `?Model` query and one in-flight
`!OutletSet=1,ON` control command. -/
def mixedState : ClientState :=
  (execOutletSet (handleRequestMessage readyState "?Model").1 1 .ON).1

/-- A fresh client configured with `maxReconnectAttempts = 5`. -/
def max5State : ClientState :=
  { opts := { demoOpts with maxReconnectAttempts := some 5 } }

/-- The state after `n` consecutive firings of the socket `close` handler. -/
def afterCloses (s : ClientState) : Nat → ClientState
  | 0 => s
  | n + 1 => onSockClose (afterCloses s n)

/-- The `i`-th pending query's promise is settled with value `v`. -/
def settledQueryAt (s : ClientState) (i : Nat) (v : Except WattBoxError String) : Prop :=
  ∃ p, s.pendingQueries.get? i = some p ∧ p.outcome = some v

/-- The `i`-th pending control's promise is settled with value `v`. -/
def settledControlAt (s : ClientState) (i : Nat) (v : Except WattBoxError Unit) : Prop :=
  ∃ p, s.pendingControls.get? i = some p ∧ p.outcome = some v

/-- Automatic reconnection is disabled: the counter holds the sentinel and no
reconnect timer is pending. -/
def reconnectDisabled (s : ClientState) : Prop :=
  s.reconnectAttempts < 0 ∧ s.reconnectTimer = none

/-! ## Shared lemmas -/

theorem settle_of_some {α : Type} (v w : α) : settle (some v) w = some v := rfl

theorem get?_set_self {α : Type} {l : List α} {i : Nat} {a : α} (b : α)
    (h : l.get? i = some a) : (l.set i b).get? i = some b := by
  induction l generalizing i with
  | nil => simp at h
  | cons x xs ih =>
    cases i with
    | zero => rfl
    | succ n => simpa using ih (i := n) (by simpa using h)

theorem get?_set_ne {α : Type} (l : List α) {i j : Nat} (h : i ≠ j) (b : α) :
    (l.set j b).get? i = l.get? i := by
  induction l generalizing i j with
  | nil => rfl
  | cons x xs ih =>
    cases j with
    | zero => cases i with
      | zero => exact absurd rfl h
      | succ n => rfl
    | succ m => cases i with
      | zero => rfl
      | succ n => simpa using ih (fun hn => h (by omega)) (j := m)

theorem get?_append_left {α : Type} {l : List α} {i : Nat} {a : α} (l' : List α)
    (h : l.get? i = some a) : (l ++ l').get? i = some a := by
  induction l generalizing i with
  | nil => simp at h
  | cons x xs ih =>
    cases i with
    | zero => simpa using h
    | succ n => simpa using ih (i := n) (by simpa using h)

theorem get?_map_eq {α β : Type} (f : α → β) (l : List α) (i : Nat) :
    (l.map f).get? i = (l.get? i).map f := by
  induction l generalizing i with
  | nil => rfl
  | cons x xs ih => cases i with
    | zero => rfl
    | succ n => simp [ih n]

/-- `disconnect` in one explicit record. -/
theorem disconnect_eq (s : ClientState) :
    disconnect s =
      { s with reconnectTimer := none, socket := none, connected := false,
               closedSockets := s.closedSockets ++
                 (match s.socket with
                  | some sock => [{ sock with ended := true }]
                  | none => []) } := by
  rcases s with ⟨o, c, ra, rt, sock, cs, ll, co, pq, pc, ose, re⟩
  cases sock <;> simp [disconnect]

/-- Fields `sockWrite` does not touch. -/
theorem sockWrite_proj (s : ClientState) (l : String) :
    (sockWrite s l).pendingQueries = s.pendingQueries ∧
    (sockWrite s l).pendingControls = s.pendingControls ∧
    (sockWrite s l).reconnectAttempts = s.reconnectAttempts ∧
    (sockWrite s l).reconnectTimer = s.reconnectTimer := by
  unfold sockWrite
  split <;> exact ⟨rfl, rfl, rfl, rfl⟩

/-- Fields `sockDestroy` does not touch. -/
theorem sockDestroy_proj (s : ClientState) :
    (sockDestroy s).pendingQueries = s.pendingQueries ∧
    (sockDestroy s).pendingControls = s.pendingControls ∧
    (sockDestroy s).reconnectAttempts = s.reconnectAttempts ∧
    (sockDestroy s).reconnectTimer = s.reconnectTimer := by
  unfold sockDestroy
  split <;> exact ⟨rfl, rfl, rfl, rfl⟩

/-- Fields `disconnect` does not touch. -/
theorem disconnect_proj (s : ClientState) :
    (disconnect s).pendingQueries = s.pendingQueries ∧
    (disconnect s).pendingControls = s.pendingControls ∧
    (disconnect s).reconnectAttempts = s.reconnectAttempts ∧
    (disconnect s).reconnectTimer = none := by
  rw [disconnect_eq]
  exact ⟨rfl, rfl, rfl, rfl⟩

/-- Fields `emitLogin` does not touch. -/
theorem emitLogin_proj (s : ClientState) (b : Bool) :
    (emitLogin s b).pendingQueries = s.pendingQueries ∧
    (emitLogin s b).pendingControls = s.pendingControls := by
  unfold emitLogin
  split
  · split
    · exact ⟨rfl, rfl⟩
    · exact ⟨(disconnect_proj _).1, (disconnect_proj _).2.1⟩
  · exact ⟨rfl, rfl⟩

/-- Fields `onSockClose` does not touch. -/
theorem onSockClose_proj (s : ClientState) :
    (onSockClose s).pendingQueries = s.pendingQueries ∧
    (onSockClose s).pendingControls = s.pendingControls := by
  simp only [onSockClose]
  repeat' split
  all_goals exact ⟨rfl, rfl⟩

/-- `fireQueryTimeout` does not touch the pending controls. -/
theorem fireQueryTimeout_pendingControls (s : ClientState) (i : Nat) :
    (fireQueryTimeout s i).pendingControls = s.pendingControls := by
  unfold fireQueryTimeout
  repeat' split
  all_goals first
    | rfl
    | exact (sockDestroy_proj s).2.1

/-- `fireControlTimeout` does not touch the pending queries. -/
theorem fireControlTimeout_pendingQueries (s : ClientState) (i : Nat) :
    (fireControlTimeout s i).pendingQueries = s.pendingQueries := by
  unfold fireControlTimeout
  repeat' split
  all_goals first
    | rfl
    | exact (sockDestroy_proj s).1

theorem fireQueryReply_outcome_some {p : PendingQuery} {v} (m : String)
    (h : p.outcome = some v) : (fireQueryReply m p).outcome = some v := by
  unfold fireQueryReply
  split <;> simp [settle, h]

theorem fireQueryError_outcome_some {p : PendingQuery} {v}
    (h : p.outcome = some v) : (fireQueryError p).outcome = some v := by
  unfold fireQueryError
  split <;> simp [settle, h]

theorem fireControlOk_outcome_some {p : PendingControl} {v}
    (h : p.outcome = some v) : (fireControlOk p).outcome = some v := by
  unfold fireControlOk
  split <;> simp [settle, h]

theorem fireControlError_outcome_some {p : PendingControl} {v}
    (h : p.outcome = some v) : (fireControlError p).outcome = some v := by
  unfold fireControlError
  split <;> simp [settle, h]

/-- One classified line never un-settles a settled query promise. -/
theorem processLine_settledQueryAt (m : String) {s : ClientState} {i : Nat} {v}
    (h : settledQueryAt s i v) : settledQueryAt (processLine s m) i v := by
  obtain ⟨p, hp, ho⟩ := h
  unfold processLine
  repeat' split
  all_goals first
    | exact ⟨p, hp, ho⟩
    | exact ⟨p, by rw [(sockWrite_proj s _).1]; exact hp, ho⟩
    | exact ⟨p, by rw [(emitLogin_proj s _).1]; exact hp, ho⟩
    | exact ⟨fireQueryReply m p, by rw [get?_map_eq, hp]; rfl,
        fireQueryReply_outcome_some m ho⟩
    | exact ⟨fireQueryError p, by rw [get?_map_eq, hp]; rfl,
        fireQueryError_outcome_some ho⟩

/-- One classified line never un-settles a settled control promise. -/
theorem processLine_settledControlAt (m : String) {s : ClientState} {i : Nat} {v}
    (h : settledControlAt s i v) : settledControlAt (processLine s m) i v := by
  obtain ⟨p, hp, ho⟩ := h
  unfold processLine
  repeat' split
  all_goals first
    | exact ⟨p, hp, ho⟩
    | exact ⟨p, by rw [(sockWrite_proj s _).2.1]; exact hp, ho⟩
    | exact ⟨p, by rw [(emitLogin_proj s _).2]; exact hp, ho⟩
    | exact ⟨fireControlOk p, by rw [get?_map_eq, hp]; rfl,
        fireControlOk_outcome_some ho⟩
    | exact ⟨fireControlError p, by rw [get?_map_eq, hp]; rfl,
        fireControlError_outcome_some ho⟩

theorem foldl_processLine_settledQueryAt (l : List (List Char)) {s : ClientState}
    {i : Nat} {v} (h : settledQueryAt s i v) :
    settledQueryAt (l.foldl (fun st m => processLine st (String.mk (jsTrim m))) s) i v := by
  induction l generalizing s with
  | nil => exact h
  | cons x xs ih => exact ih (processLine_settledQueryAt _ h)

theorem foldl_processLine_settledControlAt (l : List (List Char)) {s : ClientState}
    {i : Nat} {v} (h : settledControlAt s i v) :
    settledControlAt (l.foldl (fun st m => processLine st (String.mk (jsTrim m))) s) i v := by
  induction l generalizing s with
  | nil => exact h
  | cons x xs ih => exact ih (processLine_settledControlAt _ h)

theorem handleData_settledQueryAt (d : String) {s : ClientState} {i : Nat} {v}
    (h : settledQueryAt s i v) : settledQueryAt (handleData s d) i v := by
  simp only [handleData]
  split
  · exact foldl_processLine_settledQueryAt _ h
  · exact processLine_settledQueryAt _ h

theorem handleData_settledControlAt (d : String) {s : ClientState} {i : Nat} {v}
    (h : settledControlAt s i v) : settledControlAt (handleData s d) i v := by
  simp only [handleData]
  split
  · exact foldl_processLine_settledControlAt _ h
  · exact processLine_settledControlAt _ h

/-- No event un-settles a settled query promise: at-most-once resolution. -/
theorem step_settledQueryAt (ev : Ev) {s : ClientState} {i : Nat} {v}
    (h : settledQueryAt s i v) : settledQueryAt (step s ev) i v := by
  obtain ⟨p, hp, ho⟩ := h
  cases ev with
  | sockConnect => exact ⟨p, hp, ho⟩
  | sockClose =>
    show settledQueryAt (onSockClose s) i v
    exact ⟨p, by rw [(onSockClose_proj s).1]; exact hp, ho⟩
  | sockTimeout =>
    show settledQueryAt (onSockTimeout s) i v
    unfold onSockTimeout
    split
    · exact ⟨p, by rw [(sockDestroy_proj s).1]; exact hp, ho⟩
    · exact ⟨p, hp, ho⟩
  | sockError =>
    show settledQueryAt (onSockError s) i v
    unfold onSockError
    split
    · exact ⟨p, hp, ho⟩
    · exact ⟨p, hp, ho⟩
  | data chunk => exact handleData_settledQueryAt chunk ⟨p, hp, ho⟩
  | callDisconnect =>
    show settledQueryAt (disconnect s) i v
    exact ⟨p, by rw [(disconnect_proj s).1]; exact hp, ho⟩
  | queryTimeout j =>
    show settledQueryAt (fireQueryTimeout s j) i v
    unfold fireQueryTimeout
    split
    · rename_i q hq
      split
      · by_cases hij : i = j
        · subst hij
          have hpq : p = q := by rw [hp] at hq; exact Option.some.inj hq
          subst hpq
          refine ⟨_, get?_set_self _ (by rw [(sockDestroy_proj s).1]; exact hp), ?_⟩
          simp [settle, ho]
        · exact ⟨p, by rw [get?_set_ne _ hij, (sockDestroy_proj s).1]; exact hp, ho⟩
      · exact ⟨p, hp, ho⟩
    · exact ⟨p, hp, ho⟩
  | controlTimeout j =>
    show settledQueryAt (fireControlTimeout s j) i v
    exact ⟨p, by rw [fireControlTimeout_pendingQueries]; exact hp, ho⟩
  | callQuery m =>
    show settledQueryAt (handleRequestMessage s m).1 i v
    unfold handleRequestMessage
    split
    · exact ⟨p, hp, ho⟩
    · exact ⟨p, get?_append_left _ (by rw [(sockWrite_proj s _).1]; exact hp), ho⟩
  | callControl m =>
    show settledQueryAt (handleControlMessage s m).1 i v
    unfold handleControlMessage
    split
    · exact ⟨p, hp, ho⟩
    · exact ⟨p, by rw [(sockWrite_proj s _).1]; exact hp, ho⟩

/-- No event un-settles a settled control promise: at-most-once resolution. -/
theorem step_settledControlAt (ev : Ev) {s : ClientState} {i : Nat} {v}
    (h : settledControlAt s i v) : settledControlAt (step s ev) i v := by
  obtain ⟨p, hp, ho⟩ := h
  cases ev with
  | sockConnect => exact ⟨p, hp, ho⟩
  | sockClose =>
    show settledControlAt (onSockClose s) i v
    exact ⟨p, by rw [(onSockClose_proj s).2]; exact hp, ho⟩
  | sockTimeout =>
    show settledControlAt (onSockTimeout s) i v
    unfold onSockTimeout
    split
    · exact ⟨p, by rw [(sockDestroy_proj s).2.1]; exact hp, ho⟩
    · exact ⟨p, hp, ho⟩
  | sockError =>
    show settledControlAt (onSockError s) i v
    unfold onSockError
    split
    · exact ⟨p, hp, ho⟩
    · exact ⟨p, hp, ho⟩
  | data chunk => exact handleData_settledControlAt chunk ⟨p, hp, ho⟩
  | callDisconnect =>
    show settledControlAt (disconnect s) i v
    exact ⟨p, by rw [(disconnect_proj s).2.1]; exact hp, ho⟩
  | queryTimeout j =>
    show settledControlAt (fireQueryTimeout s j) i v
    exact ⟨p, by rw [fireQueryTimeout_pendingControls]; exact hp, ho⟩
  | controlTimeout j =>
    show settledControlAt (fireControlTimeout s j) i v
    unfold fireControlTimeout
    split
    · rename_i q hq
      split
      · by_cases hij : i = j
        · subst hij
          have hpq : p = q := by rw [hp] at hq; exact Option.some.inj hq
          subst hpq
          refine ⟨_, get?_set_self _ (by rw [(sockDestroy_proj s).2.1]; exact hp), ?_⟩
          simp [settle, ho]
        · exact ⟨p, by rw [get?_set_ne _ hij, (sockDestroy_proj s).2.1]; exact hp, ho⟩
      · exact ⟨p, hp, ho⟩
    · exact ⟨p, hp, ho⟩
  | callQuery m =>
    show settledControlAt (handleRequestMessage s m).1 i v
    unfold handleRequestMessage
    split
    · exact ⟨p, hp, ho⟩
    · exact ⟨p, by rw [(sockWrite_proj s _).2.1]; exact hp, ho⟩
  | callControl m =>
    show settledControlAt (handleControlMessage s m).1 i v
    unfold handleControlMessage
    split
    · exact ⟨p, hp, ho⟩
    · exact ⟨p, get?_append_left _ (by rw [(sockWrite_proj s _).2.1]; exact hp), ho⟩

theorem steps_settledQueryAt (evs : List Ev) {s : ClientState} {i : Nat} {v}
    (h : settledQueryAt s i v) : settledQueryAt (steps s evs) i v := by
  induction evs generalizing s with
  | nil => exact h
  | cons e es ih => exact ih (step_settledQueryAt e h)

theorem steps_settledControlAt (evs : List Ev) {s : ClientState} {i : Nat} {v}
    (h : settledControlAt s i v) : settledControlAt (steps s evs) i v := by
  induction evs generalizing s with
  | nil => exact h
  | cons e es ih => exact ih (step_settledControlAt e h)

theorem fireQueryTimeout_listeners (s : ClientState) (i : Nat) (p : PendingQuery)
    (hp : s.pendingQueries.get? i = some p) :
    ((fireQueryTimeout s i).pendingQueries.get? i).map
      (fun q => (q.replyListener, q.errorListener)) =
    some (p.replyListener, p.errorListener) := by
  simp only [fireQueryTimeout, hp]
  split
  · rw [get?_set_self _ (by rw [(sockDestroy_proj s).1]; exact hp)]
    rfl
  · rw [hp]
    rfl

theorem fireControlTimeout_listeners (s : ClientState) (i : Nat) (p : PendingControl)
    (hp : s.pendingControls.get? i = some p) :
    ((fireControlTimeout s i).pendingControls.get? i).map
      (fun q => (q.okListener, q.errorListener)) =
    some (p.okListener, p.errorListener) := by
  simp only [fireControlTimeout, hp]
  split
  · rw [get?_set_self _ (by rw [(sockDestroy_proj s).2.1]; exact hp)]
    rfl
  · rw [hp]
    rfl

theorem reconnectBackoff_natCast (n : Nat) :
    reconnectBackoff (n : Int) = min 32 (2 ^ n) * 1000 := by
  simp [reconnectBackoff]

/-- The `close` handler when the counter is nonnegative and below the
maximum: increment and schedule. -/
theorem onSockClose_not_at_max {s : ClientState} (h0 : 0 ≤ s.reconnectAttempts)
    (hmax : atMaxAttempts s.opts.maxReconnectAttempts s.reconnectAttempts = false) :
    onSockClose s =
      { s with connected := false,
               reconnectAttempts := s.reconnectAttempts + 1,
               reconnectTimer := some (reconnectBackoff (s.reconnectAttempts + 1)) } := by
  unfold onSockClose
  simp [h0, hmax]

/-- The `close` handler once the counter has reached the maximum: only the
connected flag changes, nothing is scheduled. -/
theorem onSockClose_at_max {s : ClientState} (h0 : 0 ≤ s.reconnectAttempts)
    (hmax : atMaxAttempts s.opts.maxReconnectAttempts s.reconnectAttempts = true) :
    onSockClose s = { s with connected := false } := by
  unfold onSockClose
  simp [h0, hmax]

/-- The `close` handler under the `-1` sentinel: only the connected flag
changes. -/
theorem onSockClose_sentinel {s : ClientState} (h : s.reconnectAttempts < 0) :
    onSockClose s = { s with connected := false } := by
  unfold onSockClose
  simp [not_le.mpr h]

/-- Attempt counter and timer after `n` consecutive `close` events from a
counter at `0`, under `maxReconnectAttempts = M`. -/
theorem afterCloses_spec (s : ClientState) (M : Nat)
    (hM : s.opts.maxReconnectAttempts = some M) (h0 : s.reconnectAttempts = 0) :
    ∀ n : Nat,
      (afterCloses s n).opts = s.opts ∧
      (afterCloses s n).reconnectAttempts = ((min n M : Nat) : Int) ∧
      (1 ≤ n → n ≤ M →
        (afterCloses s n).reconnectTimer = some (min 32 (2 ^ n) * 1000)) := by
  intro n
  induction n with
  | zero => exact ⟨rfl, by simp [afterCloses, h0], by omega⟩
  | succ n ih =>
    obtain ⟨hopts, hatt, htimer⟩ := ih
    have h0' : 0 ≤ (afterCloses s n).reconnectAttempts := by rw [hatt]; positivity
    by_cases h : M ≤ n
    · have hmax : atMaxAttempts (afterCloses s n).opts.maxReconnectAttempts
          (afterCloses s n).reconnectAttempts = true := by
        rw [hopts, hM, hatt]
        simp [atMaxAttempts]
        omega
      have hstep : afterCloses s (n + 1) = { afterCloses s n with connected := false } := by
        show onSockClose (afterCloses s n) = _
        exact onSockClose_at_max h0' hmax
      refine ⟨by rw [hstep, hopts], ?_, ?_⟩
      · rw [hstep]
        show (afterCloses s n).reconnectAttempts = _
        rw [hatt]
        congr 1
        omega
      · intro _ h2
        omega
    · have hmax : atMaxAttempts (afterCloses s n).opts.maxReconnectAttempts
          (afterCloses s n).reconnectAttempts = false := by
        rw [hopts, hM, hatt]
        simp [atMaxAttempts]
        omega
      have hstep := onSockClose_not_at_max h0' hmax
      have hs1 : afterCloses s (n + 1) = onSockClose (afterCloses s n) := rfl
      rw [hs1, hstep]
      have hcast : (afterCloses s n).reconnectAttempts + 1 = ((n + 1 : Nat) : Int) := by
        rw [hatt]
        have : min n M = n := by omega
        rw [this]
        push_cast
        ring
      refine ⟨hopts, ?_, ?_⟩
      · show (afterCloses s n).reconnectAttempts + 1 = _
        rw [hcast]
        congr 1
        omega
      · intro _ _
        show some (reconnectBackoff ((afterCloses s n).reconnectAttempts + 1)) = _
        rw [hcast, reconnectBackoff_natCast]

theorem sockWrite_reconnectDisabled {s : ClientState} (l : String)
    (h : reconnectDisabled s) : reconnectDisabled (sockWrite s l) := by
  obtain ⟨h1, h2⟩ := h
  exact ⟨by rw [(sockWrite_proj s l).2.2.1]; exact h1,
         by rw [(sockWrite_proj s l).2.2.2]; exact h2⟩

theorem sockDestroy_reconnectDisabled {s : ClientState}
    (h : reconnectDisabled s) : reconnectDisabled (sockDestroy s) := by
  obtain ⟨h1, h2⟩ := h
  exact ⟨by rw [(sockDestroy_proj s).2.2.1]; exact h1,
         by rw [(sockDestroy_proj s).2.2.2]; exact h2⟩

theorem disconnect_reconnectDisabled {s : ClientState}
    (h : s.reconnectAttempts < 0) : reconnectDisabled (disconnect s) := by
  exact ⟨by rw [(disconnect_proj s).2.2.1]; exact h, (disconnect_proj s).2.2.2⟩

theorem emitLogin_reconnectDisabled {s : ClientState} (b : Bool)
    (h : reconnectDisabled s) : reconnectDisabled (emitLogin s b) := by
  obtain ⟨h1, h2⟩ := h
  simp only [emitLogin]
  split
  · split
    · exact ⟨h1, h2⟩
    · have := disconnect_reconnectDisabled
        (s := { s with loginListener := false, reconnectAttempts := -1 }) (by norm_num)
      exact ⟨this.1, this.2⟩
  · exact ⟨h1, h2⟩

theorem processLine_reconnectDisabled (m : String) {s : ClientState}
    (h : reconnectDisabled s) : reconnectDisabled (processLine s m) := by
  obtain ⟨h1, h2⟩ := h
  unfold processLine
  repeat' split
  all_goals first
    | exact ⟨h1, h2⟩
    | exact sockWrite_reconnectDisabled _ ⟨h1, h2⟩
    | exact emitLogin_reconnectDisabled _ ⟨h1, h2⟩

theorem foldl_processLine_reconnectDisabled (l : List (List Char)) {s : ClientState}
    (h : reconnectDisabled s) :
    reconnectDisabled (l.foldl (fun st m => processLine st (String.mk (jsTrim m))) s) := by
  induction l generalizing s with
  | nil => exact h
  | cons x xs ih => exact ih (processLine_reconnectDisabled _ h)

theorem handleData_reconnectDisabled (d : String) {s : ClientState}
    (h : reconnectDisabled s) : reconnectDisabled (handleData s d) := by
  simp only [handleData]
  split
  · exact foldl_processLine_reconnectDisabled _ h
  · exact processLine_reconnectDisabled _ h

/-- Any event other than the socket `connect` event keeps automatic
reconnection disabled (`connect` itself is only re-initiated by an explicit
new `connect()` call). -/
theorem step_reconnectDisabled {s : ClientState} {ev : Ev} (hev : ev ≠ Ev.sockConnect)
    (h : reconnectDisabled s) : reconnectDisabled (step s ev) := by
  obtain ⟨h1, h2⟩ := h
  cases ev with
  | sockConnect => exact absurd rfl hev
  | sockClose =>
    show reconnectDisabled (onSockClose s)
    rw [onSockClose_sentinel h1]
    exact ⟨h1, h2⟩
  | sockTimeout =>
    show reconnectDisabled (onSockTimeout s)
    unfold onSockTimeout
    split
    · exact sockDestroy_reconnectDisabled ⟨h1, h2⟩
    · exact ⟨h1, h2⟩
  | sockError =>
    show reconnectDisabled (onSockError s)
    unfold onSockError
    split
    · exact ⟨h1, h2⟩
    · exact ⟨h1, h2⟩
  | data chunk => exact handleData_reconnectDisabled chunk ⟨h1, h2⟩
  | callDisconnect =>
    show reconnectDisabled (disconnect s)
    exact disconnect_reconnectDisabled h1
  | queryTimeout j =>
    show reconnectDisabled (fireQueryTimeout s j)
    unfold fireQueryTimeout
    repeat' split
    all_goals first
      | exact ⟨h1, h2⟩
      | exact sockDestroy_reconnectDisabled ⟨h1, h2⟩
  | controlTimeout j =>
    show reconnectDisabled (fireControlTimeout s j)
    unfold fireControlTimeout
    repeat' split
    all_goals first
      | exact ⟨h1, h2⟩
      | exact sockDestroy_reconnectDisabled ⟨h1, h2⟩
  | callQuery m =>
    show reconnectDisabled (handleRequestMessage s m).1
    unfold handleRequestMessage
    split
    · exact ⟨h1, h2⟩
    · exact sockWrite_reconnectDisabled _ ⟨h1, h2⟩
  | callControl m =>
    show reconnectDisabled (handleControlMessage s m).1
    unfold handleControlMessage
    split
    · exact ⟨h1, h2⟩
    · exact sockWrite_reconnectDisabled _ ⟨h1, h2⟩

theorem steps_reconnectDisabled (evs : List Ev) {s : ClientState}
    (hev : Ev.sockConnect ∉ evs) (h : reconnectDisabled s) :
    reconnectDisabled (steps s evs) := by
  induction evs generalizing s with
  | nil => exact h
  | cons e es ih =>
    exact ih (fun hm => hev (List.mem_cons_of_mem _ hm))
      (step_reconnectDisabled (fun he => hev (he ▸ List.mem_cons_self _ _)) h)

/-! ## Claims -/

/-- C9: `disconnect()` is idempotent — calling it twice in a row produces no
error (it is a total state function), and after each call the phase is
`Disconnected`: the connected flag is `false`, the socket handle is absent and
the reconnect timer is cleared. -/
theorem C9_disconnect_idempotent (s : ClientState) :
    disconnect (disconnect s) = disconnect s ∧
    (disconnect s).connected = false ∧
    (disconnect s).socket = none ∧
    (disconnect s).reconnectTimer = none ∧
    (disconnect (disconnect s)).connected = false ∧
    (disconnect (disconnect s)).socket = none ∧
    (disconnect (disconnect s)).reconnectTimer = none := by
  rcases s with ⟨o, c, ra, rt, sock, cs, ll, co, pq, pc, ose, re⟩
  cases sock <;> simp [disconnect]

/-- C1 is false as stated: from the `Ready` state, `disconnect()` leaves the
Reconnect Counter at `0` (not the `-1` "do not retry" sentinel), and the
socket `close` event that `disconnect()`'s own `end()` call provokes then
schedules a reconnect attempt in 2000 ms. -/
theorem C1_counterexample :
    (disconnect readyState).reconnectAttempts = 0 ∧
    (step (disconnect readyState) Ev.sockClose).reconnectTimer = some 2000 := by
  decide

/-- C1 (amended): `disconnect()` cancels any pending reconnect timer, ends
the transport if open, and clears the connected flag — but it leaves the
Reconnect Counter unchanged rather than setting the "do not retry" sentinel,
so the transport close caused by `disconnect()` does schedule a reconnect
attempt whenever the counter is `≥ 0` and below the configured maximum (only
an authentication failure sets the sentinel, before it calls
`disconnect()`). -/
theorem C1_amended (s : ClientState) :
    (disconnect s).reconnectTimer = none ∧
    (disconnect s).connected = false ∧
    (disconnect s).socket = none ∧
    (disconnect s).reconnectAttempts = s.reconnectAttempts ∧
    (∀ sock, s.socket = some sock →
      (disconnect s).closedSockets = s.closedSockets ++ [{ sock with ended := true }]) ∧
    (0 ≤ s.reconnectAttempts →
      atMaxAttempts s.opts.maxReconnectAttempts s.reconnectAttempts = false →
      (step (disconnect s) Ev.sockClose).reconnectTimer =
        some (reconnectBackoff (s.reconnectAttempts + 1))) := by
  rcases s with ⟨o, c, ra, rt, sock, cs, ll, co, pq, pc, ose, re⟩
  refine ⟨?_, ?_, ?_, ?_, ?_, ?_⟩ <;> cases sock <;>
    simp [disconnect, step, onSockClose] <;>
    intro h1 h2 <;> simp [h1, h2]

/-- Closed instance of `C1_amended` at the `Ready` state. -/
theorem C1_amended_witness :
    (step (disconnect readyState) Ev.sockClose).reconnectTimer =
      some (reconnectBackoff (readyState.reconnectAttempts + 1)) :=
  (C1_amended readyState).2.2.2.2.2 (by decide) (by decide)

/-- C2 is false as stated: with the socket open but login not yet completed
(the login listener still armed, the `connect()` promise unsettled),
`handleRequestMessage` does not fail — it returns no error, writes the line
to the socket and registers a pending subscription. -/
theorem C2_counterexample :
    awaitingLoginState.loginListener = true ∧
    awaitingLoginState.connectOutcome = none ∧
    (handleRequestMessage awaitingLoginState "?Firmware").2 = none ∧
    (handleRequestMessage awaitingLoginState "?Firmware").1.socket.map SocketSt.written
      = some ["?Firmware\n"] ∧
    (handleRequestMessage awaitingLoginState "?Firmware").1.pendingQueries.length = 1 := by
  decide

/-- C2 (amended): `handleRequestMessage` fails fast with
`WattBoxError('Not Connected')` and has no side effect exactly when the
`connected` flag is down — i.e. when the transport is not open.  The flag is
raised by the socket `connect` event, before login; so while the socket is
open but login has not yet succeeded (`AwaitingLogin`) the call does not
fail: it writes `message\n` to the socket and registers its subscriptions
and timer. -/
theorem C2_amended (s : ClientState) (m : String) :
    (s.connected = false →
      handleRequestMessage s m = (s, some WattBoxError.notConnected)) ∧
    (s.connected = true →
      (handleRequestMessage s m).2 = none ∧
      (handleRequestMessage s m).1.pendingQueries =
        s.pendingQueries ++ [{ key := splitKey m, timer := some (timeoutDuration s.opts) }] ∧
      ∀ sock, s.socket = some sock →
        (handleRequestMessage s m).1.socket =
          some { sock with written := sock.written ++ [m ++ "\n"] }) := by
  constructor
  · intro h
    simp [handleRequestMessage, h]
  · intro h
    refine ⟨?_, ?_, ?_⟩
    · simp [handleRequestMessage, h]
    · simp [handleRequestMessage, h, sockWrite]
      cases hs : s.socket <;> simp [hs]
    · intro sock hs
      simp [handleRequestMessage, h, sockWrite, hs]

/-- Closed instance of `C2_amended`: on a fresh (disconnected) client the
call fails fast with `NotConnectedError` and changes nothing. -/
theorem C2_amended_witness :
    handleRequestMessage initialState "?Firmware" =
      (initialState, some WattBoxError.notConnected) :=
  (C2_amended initialState "?Firmware").1 (by decide)

/-- C10: whenever a reply line reaching a query getter does not match that
getter's regular expression, the getter resolves with its fixed default
instead of throwing: the string getters return `''`, `getOutletCount`
returns `0`, `getOutletStatus` and `getOutletName` return `[]`,
`getAutoReboot` and `getUPSConnection` return `false`, and the three
structured getters return `null`. -/
theorem C10_default_values :
    (∀ r, matchBitAfter "?AutoReboot=" r = none → getAutoReboot r = false) ∧
    (∀ r, matchRestAfter "?Firmware=" r = none → getFirmware r = "") ∧
    (∀ r, matchRestAfter "?Hostname=" r = none → getHostname r = "") ∧
    (∀ r, matchRestAfter "?Model=" r = none → getModel r = "") ∧
    (∀ r, matchRestAfter "?ServiceTag=" r = none → getServiceTag r = "") ∧
    (∀ r, matchDigitsAfter "?OutletCount=" r = none → getOutletCount r = 0) ∧
    (∀ r, matchBitsAfter "?OutletStatus=" r = none → getOutletStatus r = []) ∧
    (∀ r, matchRestAfter "?OutletName=" r = none → getOutletName r = []) ∧
    (∀ r, matchBitAfter "?UPSConnection=" r = none → getUPSConnection r = false) ∧
    (∀ r, matchOutletPowerStatus r = none → getOutletPowerStatus r = none) ∧
    (∀ r, matchPowerStatus r = none → getPowerStatus r = none) ∧
    (∀ r, matchUPSStatus r = none → getUPSStatus r = none) := by
  refine ⟨?_, ?_, ?_, ?_, ?_, ?_, ?_, ?_, ?_, ?_, ?_, ?_⟩ <;> intro r h <;>
    simp [getAutoReboot, getFirmware, getHostname, getModel, getServiceTag,
          getOutletCount, getOutletStatus, getOutletName, getUPSConnection,
          getOutletPowerStatus, getPowerStatus, getUPSStatus, h]

/-- Closed instance of `C10_default_values` on a reply that matches none of
the getters' formats. -/
theorem C10_default_values_witness :
    getAutoReboot "unrelated" = false ∧ getFirmware "unrelated" = "" ∧
    getHostname "unrelated" = "" ∧ getModel "unrelated" = "" ∧
    getServiceTag "unrelated" = "" ∧ getOutletCount "unrelated" = 0 ∧
    getOutletStatus "unrelated" = [] ∧ getOutletName "unrelated" = [] ∧
    getUPSConnection "unrelated" = false ∧ getOutletPowerStatus "unrelated" = none ∧
    getPowerStatus "unrelated" = none ∧ getUPSStatus "unrelated" = none := by
  have h := C10_default_values
  exact ⟨h.1 _ (by decide), h.2.1 _ (by decide), h.2.2.1 _ (by decide),
    h.2.2.2.1 _ (by decide), h.2.2.2.2.1 _ (by decide), h.2.2.2.2.2.1 _ (by decide),
    h.2.2.2.2.2.2.1 _ (by decide), h.2.2.2.2.2.2.2.1 _ (by decide),
    h.2.2.2.2.2.2.2.2.1 _ (by decide), h.2.2.2.2.2.2.2.2.2.1 _ (by decide),
    h.2.2.2.2.2.2.2.2.2.2.1 _ (by decide), h.2.2.2.2.2.2.2.2.2.2.2 _ (by decide)⟩

/-- C8: a pending query or control call whose timeout timer fires while its
promise is unsettled rejects with `WattBoxError('Timeout')`, and the
transport socket is forcibly destroyed — `destroy()`, not `end()`: the
`ended` flag of the socket is untouched and nothing is appended to the log of
gracefully closed sockets.  The timer armed at creation holds the configured
duration, which defaults to 5000 ms. -/
theorem C8_timeout_rejects_and_destroys (s : ClientState) (sock : SocketSt)
    (hs : s.socket = some sock) :
    (∀ i p, s.pendingQueries.get? i = some p → p.timer ≠ none → p.outcome = none →
      ((fireQueryTimeout s i).pendingQueries.get? i).map PendingQuery.outcome =
        some (some (Except.error WattBoxError.timeout)) ∧
      (fireQueryTimeout s i).socket = some { sock with destroyed := true } ∧
      (fireQueryTimeout s i).closedSockets = s.closedSockets) ∧
    (∀ i p, s.pendingControls.get? i = some p → p.timer ≠ none → p.outcome = none →
      ((fireControlTimeout s i).pendingControls.get? i).map PendingControl.outcome =
        some (some (Except.error WattBoxError.timeout)) ∧
      (fireControlTimeout s i).socket = some { sock with destroyed := true } ∧
      (fireControlTimeout s i).closedSockets = s.closedSockets) ∧
    (∀ o : WattBoxClientOpts, o.timeout = none → timeoutDuration o = 5000) := by
  refine ⟨?_, ?_, ?_⟩
  · intro i p hp ht ho
    obtain ⟨t, ht'⟩ := Option.ne_none_iff_exists'.mp ht
    have hq : (sockDestroy s).pendingQueries = s.pendingQueries := by
      simp [sockDestroy, hs]
    simp only [fireQueryTimeout, hp, ht', hq]
    refine ⟨?_, ?_, ?_⟩
    · rw [get?_set_self _ hp]
      simp [ho, settle]
    · simp [sockDestroy, hs]
    · simp [sockDestroy, hs]
  · intro i p hp ht ho
    obtain ⟨t, ht'⟩ := Option.ne_none_iff_exists'.mp ht
    have hq : (sockDestroy s).pendingControls = s.pendingControls := by
      simp [sockDestroy, hs]
    simp only [fireControlTimeout, hp, ht', hq]
    refine ⟨?_, ?_, ?_⟩
    · rw [get?_set_self _ hp]
      simp [ho, settle]
    · simp [sockDestroy, hs]
    · simp [sockDestroy, hs]
  · intro o h
    simp [timeoutDuration, h]

/-- C3 is false as stated: on a state with one freshly created pending
`?Firmware` query (both bus listeners registered), the firing of the timeout
timer rejects the promise with `Timeout` and clears the timer, but leaves
both Correlation Bus once-listeners registered — the timeout path does not
unregister the request's subscriptions. -/
theorem C3_counterexample :
    ((fireQueryTimeout queryState 0).pendingQueries.get? 0).map
      (fun p => (p.replyListener, p.errorListener, p.timer, p.outcome)) =
      some (true, true, none, some (Except.error WattBoxError.timeout)) := by
  decide

/-- C3 (amended): a pending request settles at most once — no later reply,
error, timeout or any other event changes a settled promise — and the reply
and error paths each destroy the request (the fired once-listener is
consumed, the sibling listener is removed, the timer is cleared); the
timeout path, however, only rejects the promise and clears the timer: it
does not unregister the request's Correlation Bus subscriptions, which stay
registered until a matching or error line later consumes them. -/
theorem C3_pending_request_lifecycle :
    (∀ (p : PendingQuery) (m : String), p.replyListener = true → p.key = splitKey m →
      fireQueryReply m p =
        { p with replyListener := false, errorListener := false, timer := none,
                 outcome := settle p.outcome (Except.ok m) }) ∧
    (∀ p : PendingQuery, p.errorListener = true →
      fireQueryError p =
        { p with errorListener := false, replyListener := false, timer := none,
                 outcome := settle p.outcome (Except.error WattBoxError.requestError) }) ∧
    (∀ p : PendingControl, p.okListener = true →
      fireControlOk p =
        { p with okListener := false, errorListener := false, timer := none,
                 outcome := settle p.outcome (Except.ok ()) }) ∧
    (∀ p : PendingControl, p.errorListener = true →
      fireControlError p =
        { p with errorListener := false, okListener := false, timer := none,
                 outcome := settle p.outcome (Except.error WattBoxError.controlError) }) ∧
    (∀ s i p, s.pendingQueries.get? i = some p →
      ((fireQueryTimeout s i).pendingQueries.get? i).map
        (fun q => (q.replyListener, q.errorListener)) =
      some (p.replyListener, p.errorListener)) ∧
    (∀ s i p, s.pendingControls.get? i = some p →
      ((fireControlTimeout s i).pendingControls.get? i).map
        (fun q => (q.okListener, q.errorListener)) =
      some (p.okListener, p.errorListener)) ∧
    (∀ (evs : List Ev) (s : ClientState) i v,
      settledQueryAt s i v → settledQueryAt (steps s evs) i v) ∧
    (∀ (evs : List Ev) (s : ClientState) i v,
      settledControlAt s i v → settledControlAt (steps s evs) i v) := by
  refine ⟨?_, ?_, ?_, ?_, ?_, ?_, ?_, ?_⟩
  · intro p m hl hk
    unfold fireQueryReply
    rw [hl, hk]
    simp
  · intro p hl
    unfold fireQueryError
    rw [hl]
    simp
  · intro p hl
    unfold fireControlOk
    rw [hl]
    simp
  · intro p hl
    unfold fireControlError
    rw [hl]
    simp
  · intro s i p hp
    exact fireQueryTimeout_listeners s i p hp
  · intro s i p hp
    exact fireControlTimeout_listeners s i p hp
  · intro evs s i v h
    exact steps_settledQueryAt evs h
  · intro evs s i v h
    exact steps_settledControlAt evs h

/-- Closed instance of `C3_pending_request_lifecycle`: a matching reply
destroys the fresh `?Firmware` request and resolves it with the raw line; a
timed-out request (already rejected) keeps its listeners registered and its
settled outcome survives a later matching reply. -/
theorem C3_pending_request_lifecycle_witness :
    fireQueryReply "?Firmware=1.0" { key := "?Firmware", timer := some 5000 } =
      { key := "?Firmware", replyListener := false, errorListener := false,
        timer := none, outcome := some (Except.ok "?Firmware=1.0") } ∧
    ((fireQueryTimeout queryState 0).pendingQueries.get? 0).map
      (fun q => (q.replyListener, q.errorListener)) = some (true, true) ∧
    settledQueryAt (steps (fireQueryTimeout queryState 0) [Ev.data "?Firmware=1.0"]) 0
      (Except.error WattBoxError.timeout) := by
  have h := C3_pending_request_lifecycle
  refine ⟨?_, ?_, ?_⟩
  · exact h.1 { key := "?Firmware", timer := some 5000 } "?Firmware=1.0" rfl (by decide)
  · exact h.2.2.2.2.1 queryState 0 { key := "?Firmware", timer := some 5000 } (by decide)
  · exact h.2.2.2.2.2.2.1 [Ev.data "?Firmware=1.0"] (fireQueryTimeout queryState 0) 0
      (Except.error WattBoxError.timeout)
      ⟨{ key := "?Firmware", replyListener := true, errorListener := true,
         timer := none, outcome := some (Except.error WattBoxError.timeout) },
       by decide, by decide⟩

/-- C4: starting from a reconnect counter of `0` with
`maxReconnectAttempts = M`, the `n`-th consecutive unexpected transport close
(for `1 ≤ n ≤ M`) schedules the reconnect attempt after
`min(32, 2^n)` seconds (2 s, 4 s, 8 s, 16 s, 32 s, 32 s, …, stored here in
milliseconds) and leaves the counter at `n`; and once the counter has reached
`M`, a further close changes only the connected flag — no further reconnect
attempt is scheduled. -/
theorem C4_backoff (s : ClientState) (M : Nat)
    (hM : s.opts.maxReconnectAttempts = some M) (h0 : s.reconnectAttempts = 0) :
    (∀ n, 1 ≤ n → n ≤ M →
      (afterCloses s n).reconnectTimer = some (min 32 (2 ^ n) * 1000) ∧
      (afterCloses s n).reconnectAttempts = (n : Int)) ∧
    (∀ n, M ≤ n →
      step (afterCloses s n) Ev.sockClose = { afterCloses s n with connected := false }) := by
  have hspec := afterCloses_spec s M hM h0
  constructor
  · intro n h1 h2
    obtain ⟨hopts, hatt, htimer⟩ := hspec n
    refine ⟨htimer h1 h2, ?_⟩
    rw [hatt]
    congr 1
    omega
  · intro n hn
    obtain ⟨hopts, hatt, htimer⟩ := hspec n
    have h0' : 0 ≤ (afterCloses s n).reconnectAttempts := by rw [hatt]; positivity
    have hmax : atMaxAttempts (afterCloses s n).opts.maxReconnectAttempts
        (afterCloses s n).reconnectAttempts = true := by
      rw [hopts, hM, hatt]
      simp [atMaxAttempts]
      omega
    show onSockClose (afterCloses s n) = _
    exact onSockClose_at_max h0' hmax

/-- Closed instance of `C4_backoff` with `maxReconnectAttempts = 5`: the
third close schedules at 8 s and a close at the limit schedules nothing. -/
theorem C4_backoff_witness :
    (afterCloses max5State 3).reconnectTimer = some (min 32 (2 ^ 3) * 1000) ∧
    step (afterCloses max5State 5) Ev.sockClose =
      { afterCloses max5State 5 with connected := false } := by
  have h := C4_backoff max5State 5 rfl rfl
  exact ⟨(h.1 3 (by decide) (by decide)).1, h.2 5 (by decide)⟩

/-- C5: when the device line `Invalid Login` is handled while the one-shot
login listener of a pending `connect()` is armed, the `connect()` promise
rejects with `WattBoxError('Invalid Login')` (the `AuthenticationError`),
the session is torn down (`Disconnected`: flag down, socket gone, timer
cleared) and the reconnect counter is set to the `-1` sentinel; from then
on, no run of events that does not contain a new socket `connect` ever
schedules a reconnect timer — the rejection is terminal. -/
theorem C5_invalid_login_terminal (s : ClientState)
    (hl : s.loginListener = true) (ho : s.connectOutcome = none) :
    (handleData s "Invalid Login").connectOutcome =
      some (Except.error WattBoxError.invalidLogin) ∧
    (handleData s "Invalid Login").connected = false ∧
    (handleData s "Invalid Login").socket = none ∧
    (handleData s "Invalid Login").reconnectTimer = none ∧
    (handleData s "Invalid Login").reconnectAttempts = -1 ∧
    ∀ evs : List Ev, Ev.sockConnect ∉ evs →
      (steps (handleData s "Invalid Login") evs).reconnectTimer = none ∧
      (steps (handleData s "Invalid Login") evs).reconnectAttempts < 0 := by
  rcases s with ⟨o, c, ra, rt, sock, cs, ll, co, pq, pc, ose, re⟩
  simp only at hl ho
  subst hl
  subst ho
  cases sock with
  | none =>
    refine ⟨rfl, rfl, rfl, rfl, rfl, ?_⟩
    intro evs hevs
    have h := steps_reconnectDisabled evs hevs
      (s := handleData ⟨o, c, ra, rt, none, cs, true, none, pq, pc, ose, re⟩ "Invalid Login")
      ⟨by show (-1 : Int) < 0; decide, rfl⟩
    exact ⟨h.2, h.1⟩
  | some sk =>
    refine ⟨rfl, rfl, rfl, rfl, rfl, ?_⟩
    intro evs hevs
    have h := steps_reconnectDisabled evs hevs
      (s := handleData ⟨o, c, ra, rt, some sk, cs, true, none, pq, pc, ose, re⟩ "Invalid Login")
      ⟨by show (-1 : Int) < 0; decide, rfl⟩
    exact ⟨h.2, h.1⟩

/-- Closed instance of `C5_invalid_login_terminal` from the awaiting-login
state, with two subsequent close events and a stray data chunk. -/
theorem C5_invalid_login_terminal_witness :
    (handleData awaitingLoginState "Invalid Login").connectOutcome =
      some (Except.error WattBoxError.invalidLogin) ∧
    (steps (handleData awaitingLoginState "Invalid Login")
        [Ev.sockClose, Ev.data "~OutletStatus=1", Ev.sockClose]).reconnectTimer = none := by
  have h := C5_invalid_login_terminal awaitingLoginState (by decide) (by decide)
  exact ⟨h.1,
    (h.2.2.2.2.2 [Ev.sockClose, Ev.data "~OutletStatus=1", Ev.sockClose] (by decide)).1⟩

/-- C6: the chunk `"OK\n~OutletStatus=1,1,0\n"` arriving on a state with one
pending control command and one pending `?Model` query is split and handled
as the two lines in arrival order; the `OK` resolves the pending control
call, the `~OutletStatus` notification appends an `outletStatus` event
decoded to `[true, true, false]`, and neither affects the other: the pending
query and the socket are untouched. -/
theorem C6_multiline_chunk :
    handleData mixedState "OK\n~OutletStatus=1,1,0\n" =
      processLine (processLine mixedState "OK") "~OutletStatus=1,1,0" ∧
    (handleData mixedState "OK\n~OutletStatus=1,1,0\n").outletStatusEvents =
      [[true, true, false]] ∧
    ((handleData mixedState "OK\n~OutletStatus=1,1,0\n").pendingControls.get? 0).map
      PendingControl.outcome = some (some (Except.ok ())) ∧
    (handleData mixedState "OK\n~OutletStatus=1,1,0\n").pendingQueries =
      mixedState.pendingQueries ∧
    (handleData mixedState "OK\n~OutletStatus=1,1,0\n").socket = mixedState.socket := by
  decide

/-- C7: a reply line starting with `?` is published under the key that is
the text before the first `=` (`message.split('=')[0]`); a pending query
whose listener is registered under that key and whose promise is unsettled
resolves with the full raw reply line.  In particular the device reply
`?OutletStatus=1,1,0,1` resolves a `sendQuery("?OutletStatus")` with the raw
string `"?OutletStatus=1,1,0,1"`, which `getOutletStatus` decodes to
`[true, true, false, true]`. -/
theorem C7_reply_round_trip (s : ClientState) (i : Nat) (p : PendingQuery) (m : String)
    (hp : s.pendingQueries.get? i = some p) (hl : p.replyListener = true)
    (ho : p.outcome = none) (hk : p.key = splitKey m)
    (hq : jsStartsWith "?" m = true) :
    ((processLine s m).pendingQueries.get? i).map PendingQuery.outcome =
      some (some (Except.ok m)) ∧
    getOutletStatus "?OutletStatus=1,1,0,1" = [true, true, false, true] := by
  refine ⟨?_, by decide⟩
  have hm1 : m ≠ "Please Login to Continue" := by rintro rfl; exact absurd hq (by decide)
  have hm2 : m ≠ "Username:" := by rintro rfl; exact absurd hq (by decide)
  have hm3 : m ≠ "Password:" := by rintro rfl; exact absurd hq (by decide)
  have hm4 : m ≠ "Successfully Logged In!" := by rintro rfl; exact absurd hq (by decide)
  have hm5 : m ≠ "Invalid Login" := by rintro rfl; exact absurd hq (by decide)
  simp only [processLine, hm1, hm2, hm3, hm4, hm5, hq, if_false, if_true,
    if_neg, if_pos]
  rw [get?_map_eq, hp]
  simp [fireQueryReply, hl, hk, settle, ho]

/-- Closed instance of `C7_reply_round_trip`: the complete
`sendQuery("?OutletStatus")` round trip. -/
theorem C7_reply_round_trip_witness :
    ((processLine (handleRequestMessage readyState "?OutletStatus").1
        "?OutletStatus=1,1,0,1").pendingQueries.get? 0).map PendingQuery.outcome =
      some (some (Except.ok "?OutletStatus=1,1,0,1")) :=
  (C7_reply_round_trip (handleRequestMessage readyState "?OutletStatus").1 0
    { key := "?OutletStatus", timer := some 5000 } "?OutletStatus=1,1,0,1"
    (by decide) (by decide) (by decide) (by decide) (by decide)).1

/-- Closed instance of `C8_timeout_rejects_and_destroys` on a state with one
in-flight `?Model` query and one in-flight control command. -/
theorem C8_witness :
    ((fireQueryTimeout mixedState 0).pendingQueries.get? 0).map PendingQuery.outcome =
      some (some (Except.error WattBoxError.timeout)) ∧
    (fireControlTimeout mixedState 0).socket =
      some { written := ["?Model\n", "!OutletSet=1,ON\n"], ended := false,
             destroyed := true } := by
  have h := C8_timeout_rejects_and_destroys mixedState
    { written := ["?Model\n", "!OutletSet=1,ON\n"] } (by decide)
  exact ⟨(h.1 0 { key := "?Model", timer := some 5000 }
            (by decide) (by decide) (by decide)).1,
         (h.2.1 0 { timer := some 5000 }
            (by decide) (by decide) (by decide)).2.1⟩

end WattBox
